import Mathlib

/-!
Verification of the Project Sentinel correlation store and detection engine
(`src/data_correlator.py`, `src/detection_engine.py`, `src/data_parser.py`).

Modelling conventions:
* a parsed record (a Python dict produced by `DataParser`) is a `ParsedData`
  structure whose optional fields model Python `None` / missing values;
* timestamps (Python `datetime`) are integer seconds (`Int`); the 30 s window,
  the 10 s correlation radius and the 1 h inventory retention become integer
  arithmetic on seconds;
* prices, weights and ratios (Python floats) are exact rationals (`Rat`);
  the sample values exercised here are all exactly representable;
* `dict`/`defaultdict` keyed by station id is an association list with unique
  keys in insertion order (`lookupA`/`setA`); `deque` is a `List`;
* a caught exception inside a detector (`except: return None/[]`) is modelled
  by an explicit guard returning the same fallback value.
-/

set_option linter.unusedVariables false

/- Core marks the rational-number operations `@[irreducible]`, which blocks
`decide` on concrete rational arithmetic; restore default reducibility for
them (the kernel re-checks every such proof anyway). -/
attribute [local semireducible] Rat.mul Rat.inv Rat.add Rat.sub

namespace Sentinel

/-- A normalized record as produced by `DataParser`: one Python dict.
`none` models a missing field or an explicit `None` value.  `timestamp = none`
models a missing or unparseable timestamp string (in which case
`DataCorrelator.add_data` returns without storing anything). -/
structure ParsedData where
  dtype : Option String := none
  timestamp : Option Int := none
  station_id : Option String := none
  status : Option String := none
  sku : Option String := none
  location : Option String := none
  price : Option Rat := none
  weight_g : Option Rat := none
  customer_count : Option Int := none
  average_dwell_time : Option Rat := none
  inventory_data : List (String × Option Int) := []
deriving Repr, DecidableEq

/-- A stored record: the parsed dict together with its parsed timestamp
(`data['parsed_timestamp'] = timestamp` in `DataCorrelator`). -/
structure Entry where
  ts : Int
  data : ParsedData
deriving Repr, DecidableEq

/-- Models `station_id → deque of entries`, modelling `defaultdict(deque)`:
an association list with unique keys kept in insertion order. -/
abbrev Buckets := List (String × List Entry)

/-- Dictionary lookup (`m.get(k)`). -/
def lookupA {α : Type} (m : List (String × α)) (k : String) : Option α :=
  match m with
  | [] => none
  | (a, v) :: rest => if a = k then some v else lookupA rest k

/-- Dictionary write (`m[k] = v`): replaces the first binding of `k`, or
appends a new binding (Python dicts preserve insertion order). -/
def setA {α : Type} (m : List (String × α)) (k : String) (v : α) :
    List (String × α) :=
  match m with
  | [] => [(k, v)]
  | (a, w) :: rest => if a = k then (a, v) :: rest else (a, w) :: setA rest k v

/-- Models `m.get(k, [])` on a bucket dictionary (`.get` never inserts). -/
def getB (b : Buckets) (k : String) : List Entry :=
  (lookupA b k).getD []

/-- Models `self.bucket[station_id].append(entry)` on a `defaultdict(deque)`. -/
def appendB (b : Buckets) (k : String) (e : Entry) : Buckets :=
  setA b k (getB b k ++ [e])

/-- The `DataCorrelator` state: four per-station bucket dictionaries, the
global inventory snapshot list, and per-station status/last-activity maps. -/
structure Store where
  time_window : Int
  pos_transactions : Buckets := []
  rfid_readings : Buckets := []
  queue_data : Buckets := []
  product_recognition : Buckets := []
  inventory_snapshots : List Entry := []
  station_status : List (String × String) := []
  last_activity : List (String × Int) := []
deriving Repr, DecidableEq

/-- Models `DataCorrelator(time_window_seconds=w)` right after construction. -/
def emptyStore (w : Int) : Store :=
  { time_window := w }

/-- Python truthiness of `parsed_data.get('station_id')`: `None` and the
empty string are falsy, so such records are not routed to a station. -/
def ParsedData.sid (d : ParsedData) : Option String :=
  match d.station_id with
  | some s => if s = "" then none else some s
  | none => none

/-- Models `_add_pos_transaction` and friends: append to the station's bucket when
the record carries a truthy `station_id`, otherwise drop it. -/
def appendIf (b : Buckets) (so : Option String) (e : Entry) : Buckets :=
  match so with
  | some s => appendB b s e
  | none => b

/-- The type dispatch of `add_data`: route the record to the bucket named by
its `type` field; an `inventory_snapshot` goes to the global list, which is
immediately trimmed to entries younger than one hour
(`_add_inventory_snapshot`). Unknown types are stored nowhere. -/
def routeData (st : Store) (d : ParsedData) (ts : Int) : Store :=
  if d.dtype = some "pos_transaction" then
    { st with pos_transactions := appendIf st.pos_transactions d.sid ⟨ts, d⟩ }
  else if d.dtype = some "rfid_reading" then
    { st with rfid_readings := appendIf st.rfid_readings d.sid ⟨ts, d⟩ }
  else if d.dtype = some "queue_monitoring" then
    { st with queue_data := appendIf st.queue_data d.sid ⟨ts, d⟩ }
  else if d.dtype = some "product_recognition" then
    { st with product_recognition := appendIf st.product_recognition d.sid ⟨ts, d⟩ }
  else if d.dtype = some "inventory_snapshot" then
    let trimmed :=
      (st.inventory_snapshots ++ [(⟨ts, d⟩ : Entry)]).filter
        (fun s => decide (ts - 3600 < s.ts))
    { st with inventory_snapshots := trimmed }
  else st

/-- Models `add_data`'s status tracking: on any record with a truthy `station_id`,
overwrite that station's status (`parsed_data.get('status', 'Unknown')`) and
last-activity time. -/
def updateStatus (st : Store) (d : ParsedData) (ts : Int) : Store :=
  match d.sid with
  | some s =>
    { st with
      station_status := setA st.station_status s (d.status.getD "Unknown"),
      last_activity := setA st.last_activity s ts }
  | none => st

/-- Models `_cleanup_old_data`'s inner `while` loop: pop entries from the front of
one deque while the front entry is older than the cutoff. -/
def cleanupList (cutoff : Int) (l : List Entry) : List Entry :=
  l.dropWhile (fun e => decide (e.ts < cutoff))

/-- Models `_cleanup_old_data` applied to every station of one bucket dictionary. -/
def cleanupBucket (cutoff : Int) (b : Buckets) : Buckets :=
  b.map (fun p => (p.1, cleanupList cutoff p.2))

/-- Models `_cleanup_old_data(current_timestamp)`: evict, from the front of every
per-station deque of all four bucket dictionaries, entries older than
`current_timestamp - time_window`. -/
def cleanupStore (st : Store) (current : Int) : Store :=
  let cutoff := current - st.time_window
  { st with
    pos_transactions := cleanupBucket cutoff st.pos_transactions,
    rfid_readings := cleanupBucket cutoff st.rfid_readings,
    queue_data := cleanupBucket cutoff st.queue_data,
    product_recognition := cleanupBucket cutoff st.product_recognition }

/-- Models `DataCorrelator.add_data`: drop the record when its timestamp is missing
or unparseable; otherwise route it to its bucket, update the station status,
and clean old data relative to the record's own timestamp. -/
def add_data (st : Store) (d : ParsedData) : Store :=
  match d.timestamp with
  | none => st
  | some ts => cleanupStore (updateStatus (routeData st d ts) d ts) ts

/-- Ingest a whole sequence of records, in order. -/
def ingestAll (st : Store) (ds : List ParsedData) : Store :=
  ds.foldl add_data st

/-- The result dict of `find_correlations`. -/
structure Correlations where
  pos_transactions : List Entry
  rfid_readings : List Entry
  queue_data : List Entry
  product_recognition : List Entry
deriving Repr, DecidableEq

/-- One `for`-loop of `find_correlations`: append, in store order, the
entries whose timestamp lies within `[lo, hi]`. -/
def collectWindow (lo hi : Int) (l : List Entry) : List Entry :=
  l.foldl (fun acc e => if lo ≤ e.ts ∧ e.ts ≤ hi then acc ++ [e] else acc) []

/-- Models `DataCorrelator.find_correlations(station_id, timestamp)`: the symmetric
10-second time-proximity join; all reads use `.get(station_id, [])`. -/
def find_correlations (st : Store) (sid : String) (ts : Int) : Correlations :=
  let lo := ts - 10
  let hi := ts + 10
  { pos_transactions := collectWindow lo hi (getB st.pos_transactions sid),
    rfid_readings := collectWindow lo hi (getB st.rfid_readings sid),
    queue_data := collectWindow lo hi (getB st.queue_data sid),
    product_recognition := collectWindow lo hi (getB st.product_recognition sid) }

/-- Models `DataCorrelator.get_recent_data(station_id, data_type, limit)`:
`list(station_data)[-limit:]`.  Note the Python quirk that `limit = 0` slices
as `[-0:] = [0:]`, i.e. returns the whole list. -/
def get_recent_data (st : Store) (sid : String) (dtype : String) (limit : Nat) :
    List Entry :=
  let stores : Option Buckets :=
    if dtype = "pos_transactions" then some st.pos_transactions
    else if dtype = "rfid_readings" then some st.rfid_readings
    else if dtype = "queue_data" then some st.queue_data
    else if dtype = "product_recognition" then some st.product_recognition
    else none
  match stores with
  | none => []
  | some b =>
    let l := getB b sid
    if limit = 0 then l else l.drop (l.length - limit)

/-- Models `DataCorrelator.get_station_status`: `('Unknown', None)` defaults for a
station that was never written. -/
def get_station_status (st : Store) (sid : String) : String × Option Int :=
  ((lookupA st.station_status sid).getD "Unknown", lookupA st.last_activity sid)

/-- Models `DataCorrelator.get_all_stations`: the set of keys of the four bucket
dictionaries.  Python returns a `set` in unspecified order; every use in the
detection engine is order-insensitive (counting and summing over stations),
so a duplicate-free list is an adequate model. -/
def get_all_stations (st : Store) : List String :=
  (st.pos_transactions.map Prod.fst ++ st.rfid_readings.map Prod.fst ++
   st.queue_data.map Prod.fst ++ st.product_recognition.map Prod.fst).dedup

/-- Models `DataCorrelator.get_latest_inventory`: the last inventory snapshot. -/
def get_latest_inventory (st : Store) : Option Entry :=
  st.inventory_snapshots.getLast?

/-- One row of the products reference table loaded by
`DataParser.load_reference_data`. -/
structure Product where
  product_name : String := ""
  quantity : Int := 0
  epc_range : String := ""
  barcode : String := ""
  weight : Rat := 0
  price : Rat := 0
deriving Repr, DecidableEq

/-- The `DataParser` reference catalog (`products_data`); the customers table
is irrelevant to the detectors verified here. -/
structure DataParser where
  products_data : List (String × Product) := []
deriving Repr, DecidableEq

/-- Models `DataParser.get_product_info`. -/
def get_product_info (p : DataParser) (sku : String) : Option Product :=
  lookupA p.products_data sku

/-- Models `DataParser.get_expected_weight`. -/
def get_expected_weight (p : DataParser) (sku : String) : Option Rat :=
  (get_product_info p sku).map Product.weight

/-- Models `DataParser.get_expected_price`. -/
def get_expected_price (p : DataParser) (sku : String) : Option Rat :=
  (get_product_info p sku).map Product.price

/-- The dict returned by `detect_scanner_avoidance`. -/
structure ScannerFinding where
  event_name : String
  station_id : String
  product_sku : String
  timestamp : Int
  confidence : Rat
  severity : String
deriving Repr, DecidableEq

/-- The RFID guard shared by scanner avoidance and barcode switching:
`location == 'IN_SCAN_AREA' and sku and sku != 'null'` (Python truthiness:
`None` and `''` are falsy).  Returns the qualifying SKU. -/
def rfidQualifies (e : Entry) : Option String :=
  match e.data.location, e.data.sku with
  | some loc, some s =>
    if loc = "IN_SCAN_AREA" ∧ s ≠ "" ∧ s ≠ "null" then some s else none
  | _, _ => none

/-- Models `any(pos.get('sku') == sku for pos in pos_transactions)`: the inner
matching loop of `detect_scanner_avoidance`. -/
def posHasSku (pos : List Entry) (s : String) : Bool :=
  pos.any (fun p => decide (p.data.sku = some s))

/-- The outer loop of `detect_scanner_avoidance`: return a finding for the
first qualifying RFID reading with no matching POS transaction. -/
def scanLoop (sid : String) (T : Int) (pos : List Entry) :
    List Entry → Option ScannerFinding
  | [] => none
  | r :: rest =>
    match rfidQualifies r with
    | some s =>
      if posHasSku pos s then scanLoop sid T pos rest
      else some ⟨"Scanner Avoidance", sid, s, T, 8/10, "HIGH"⟩
    | none => scanLoop sid T pos rest

/-- Models `DetectionEngine.detect_scanner_avoidance`. -/
def detect_scanner_avoidance (st : Store) (sid : String) (T : Int) :
    Option ScannerFinding :=
  let c := find_correlations st sid T
  scanLoop sid T c.pos_transactions c.rfid_readings

/-- The dict returned by `detect_barcode_switching`. -/
structure BarcodeFinding where
  event_name : String
  station_id : String
  actual_sku : String
  scanned_sku : String
  timestamp : Int
  expected_price : Rat
  actual_price : Rat
  price_difference : Rat
  confidence : Rat
  severity : String
deriving Repr, DecidableEq

/-- The test applied to one RFID reading inside the inner loop of
`detect_barcode_switching`, given the current POS SKU and price: the reading
qualifies (`IN_SCAN_AREA`, truthy non-`'null'` SKU), carries a different SKU,
the catalog price exists and is truthy and positive, and
`pos_price / expected_price < 0.5`. -/
def bcQual (cat : DataParser) (ps : String) (pp : Rat) (r : Entry) : Bool :=
  match rfidQualifies r with
  | some rs =>
    if rs = ps then false
    else
      match get_expected_price cat rs with
      | some ep => decide (0 < ep ∧ pp / ep < 1/2)
      | none => false
  | none => false

/-- The finding built by `detect_barcode_switching` for POS sku/price
`(ps, pp)` and a qualifying RFID reading `r`. -/
def mkBarcodeFinding (cat : DataParser) (sid : String) (T : Int) (ps : String)
    (pp : Rat) (r : Entry) : BarcodeFinding :=
  let rs := (rfidQualifies r).getD ""
  let ep := (get_expected_price cat rs).getD 0
  ⟨"Barcode Switching", sid, rs, ps, T, ep, pp, ep - pp, 9/10, "CRITICAL"⟩

/-- The inner RFID loop of `detect_barcode_switching`. -/
def barcodeInner (cat : DataParser) (sid : String) (T : Int) (ps : String)
    (pp : Rat) : List Entry → Option BarcodeFinding
  | [] => none
  | r :: rest =>
    if bcQual cat ps pp r then some (mkBarcodeFinding cat sid T ps pp r)
    else barcodeInner cat sid T ps pp rest

/-- The outer POS loop of `detect_barcode_switching`:
`if not pos_sku or pos_price is None: continue`. -/
def barcodeOuter (cat : DataParser) (sid : String) (T : Int)
    (rfids : List Entry) : List Entry → Option BarcodeFinding
  | [] => none
  | p :: rest =>
    match p.data.sku, p.data.price with
    | some ps, some pp =>
      if ps = "" then barcodeOuter cat sid T rfids rest
      else
        match barcodeInner cat sid T ps pp rfids with
        | some f => some f
        | none => barcodeOuter cat sid T rfids rest
    | _, _ => barcodeOuter cat sid T rfids rest

/-- Models `DetectionEngine.detect_barcode_switching`. -/
def detect_barcode_switching (cat : DataParser) (st : Store) (sid : String)
    (T : Int) : Option BarcodeFinding :=
  let c := find_correlations st sid T
  barcodeOuter cat sid T c.rfid_readings c.pos_transactions

/-- The dict returned by `detect_weight_discrepancies`.  `variance_percent`
is kept exact; the source rounds it to two decimals for display only, and the
severity decision uses the unrounded value. -/
structure WeightFinding where
  event_name : String
  station_id : String
  product_sku : String
  expected_weight : Rat
  actual_weight : Rat
  weight_difference : Rat
  variance_percent : Rat
  timestamp : Int
  confidence : Rat
  severity : String
deriving Repr, DecidableEq

/-- The POS loop of `detect_weight_discrepancies`: skip transactions without
a truthy SKU or with no recorded weight; require a catalog weight that is
truthy and positive; fire on `weight_diff > WEIGHT_TOLERANCE` (50 g), with
severity `HIGH` when the relative deviation exceeds 20 %. -/
def weightLoop (cat : DataParser) (sid : String) (T : Int) :
    List Entry → Option WeightFinding
  | [] => none
  | p :: rest =>
    match p.data.sku, p.data.weight_g with
    | some s, some aw =>
      if s = "" then weightLoop cat sid T rest
      else
        match get_expected_weight cat s with
        | some ew =>
          if 0 < ew then
            let diff := |aw - ew|
            let vp := diff / ew * 100
            if 50 < diff then
              some ⟨"Weight Discrepancies", sid, s, ew, aw, diff, vp, T, 85/100,
                    if 20 < vp then "HIGH" else "MEDIUM"⟩
            else weightLoop cat sid T rest
          else weightLoop cat sid T rest
        | none => weightLoop cat sid T rest
    | _, _ => weightLoop cat sid T rest

/-- Models `DetectionEngine.detect_weight_discrepancies`. -/
def detect_weight_discrepancies (cat : DataParser) (st : Store) (sid : String)
    (T : Int) : Option WeightFinding :=
  let c := find_correlations st sid T
  weightLoop cat sid T c.pos_transactions

/-- The dict returned by `detect_long_queue_length`.  `average_dwell_time` is
copied verbatim from the latest sample (it may be `None`). -/
structure QueueFinding where
  event_name : String
  station_id : String
  num_of_customers : Int
  average_dwell_time : Option Rat
  queue_trend : String
  duration_seconds : Int
  timestamp : Int
  confidence : Rat
  severity : String
deriving Repr, DecidableEq

/-- The `customer_count` values of a list of queue samples. -/
def qcounts (l : List Entry) : List (Option Int) :=
  l.map (fun q => q.data.customer_count)

/-- Models `DetectionEngine.detect_long_queue_length`: look at the last 6 queue
samples.  With at least 3 samples, compute the trend from the first, last and
second-to-last counts and the sustained duration as five seconds per sample
whose count meets `LONG_QUEUE_THRESHOLD = 3`; fire when the latest count is
at least 3 or the duration is at least 15 s.  A `None` count anywhere in the
inspected window makes the Python comparisons raise `TypeError`, which the
enclosing `except` converts to `None`; that is modelled by the explicit
`isNone` guards. -/
def detect_long_queue_length (st : Store) (sid : String) (T : Int) :
    Option QueueFinding :=
  let recent := get_recent_data st sid "queue_data" 6
  match recent.getLast? with
  | none => none
  | some latest =>
    if 3 ≤ recent.length then
      if (qcounts recent).any Option.isNone then none
      else
        let counts : List Int := (qcounts recent).map (fun c => c.getD 0)
        let cc : Int := (counts.getLast?).getD 0
        let c0 : Int := (counts.head?).getD 0
        let c1 : Int := ((counts.dropLast).getLast?).getD 0
        let trend : String :=
          if c0 < cc ∧ c1 < cc then "growing"
          else if cc < c0 ∧ cc < c1 then "shrinking"
          else "stable"
        let dur : Int := 5 * (counts.countP (fun c => decide (3 ≤ c)) : Int)
        if 3 ≤ cc ∨ 15 ≤ dur then
          some { event_name := "Long Queue Length", station_id := sid,
                 num_of_customers := cc,
                 average_dwell_time := latest.data.average_dwell_time,
                 queue_trend := trend, duration_seconds := dur, timestamp := T,
                 confidence := if trend = "growing" then 9/10 else 85/100,
                 severity :=
                   if 7 ≤ cc ∨ (5 ≤ cc ∧ trend = "growing") then "CRITICAL"
                   else if 5 ≤ cc ∨ 25 ≤ dur then "HIGH"
                   else "MEDIUM" }
        else none
    else
      match latest.data.customer_count with
      | none => none
      | some cc =>
        if 3 ≤ cc then
          some { event_name := "Long Queue Length", station_id := sid,
                 num_of_customers := cc,
                 average_dwell_time := latest.data.average_dwell_time,
                 queue_trend := "stable", duration_seconds := 0, timestamp := T,
                 confidence := 85/100,
                 severity :=
                   if 7 ≤ cc then "CRITICAL"
                   else if 5 ≤ cc then "HIGH"
                   else "MEDIUM" }
        else none

/-- The dict appended by `detect_inventory_discrepancies`.  `product_name` is
always `"Unknown"` because the source looks up key `'name'` while the catalog
loader stores the name under `'product_name'`, so the default is taken;
`variance_percent` is kept exact (the source rounds it for display only). -/
structure InvFinding where
  event_name : String
  sku : String
  product_name : String
  expected_inventory : Int
  actual_inventory : Int
  difference : Int
  timestamp : Int
  variance_percent : Rat
  confidence : Rat
  severity : String
deriving Repr, DecidableEq

/-- The body of the per-SKU loop of `detect_inventory_discrepancies`: skip a
`None` actual quantity, a missing catalog entry, or a non-positive expected
quantity; use the percentage variance when the expected quantity is at least
`MIN_INVENTORY_FOR_VARIANCE = 10` and the `×10`-scaled absolute difference
otherwise; fire when the variance exceeds
`INVENTORY_VARIANCE_THRESHOLD = 5`. -/
def invCheck (cat : DataParser) (T : Int) (p : String × Option Int) :
    Option InvFinding :=
  match p.2 with
  | none => none
  | some actual =>
    match get_product_info cat p.1 with
    | none => none
    | some info =>
      let expected := info.quantity
      if expected ≤ 0 then none
      else
        let diff : Int := |actual - expected|
        let variance : Rat :=
          if 10 ≤ expected then (diff : Rat) / (expected : Rat) * 100
          else (diff : Rat) * 10
        if 5 < variance then
          some { event_name := "Inventory Discrepancy", sku := p.1,
                 product_name := "Unknown",
                 expected_inventory := expected, actual_inventory := actual,
                 difference := actual - expected, timestamp := T,
                 variance_percent := variance, confidence := 8/10,
                 severity :=
                   if 20 < variance then "CRITICAL"
                   else if 10 < variance then "HIGH"
                   else "MEDIUM" }
        else none

/-- Models `events.append(...)` for one SKU of the inventory loop. -/
def invAppend (cat : DataParser) (T : Int) (acc : List InvFinding)
    (p : String × Option Int) : List InvFinding :=
  match invCheck cat T p with
  | some f => acc ++ [f]
  | none => acc

/-- Models `DetectionEngine.detect_inventory_discrepancies`: one pass over the
items of the latest snapshot's `inventory_data`, appending a finding for each
SKU whose variance fires. -/
def detect_inventory_discrepancies (cat : DataParser) (st : Store) (T : Int) :
    List InvFinding :=
  match get_latest_inventory st with
  | none => []
  | some snap => snap.data.inventory_data.foldl (invAppend cat T) []

/-- The `'Cashier'` staffing dict of `recommend_staffing_needs` (ratios kept
exact; the source rounds them for display only). -/
structure CashierFinding where
  event_name : String
  staff_type : String
  action : String
  reason : String
  busy_stations : Int
  sustained_busy_stations : Int
  total_stations : Int
  total_customers : Int
  busy_ratio : Rat
  sustained_ratio : Rat
  timestamp : Int
  confidence : Rat
  severity : String
deriving Repr, DecidableEq

/-- The `'Support Staff'` staffing dict of `recommend_staffing_needs`. -/
structure SupportFinding where
  event_name : String
  staff_type : String
  action : String
  reason : String
  affected_stations : Int
  timestamp : Int
  confidence : Rat
  severity : String
deriving Repr, DecidableEq

/-- The heterogeneous events list returned by `recommend_staffing_needs`. -/
inductive StaffEvent
  | cashier (f : CashierFinding)
  | support (f : SupportFinding)
deriving Repr, DecidableEq

/-- The accumulators of the per-station loop of
`recommend_staffing_needs`. -/
structure StaffAcc where
  total_customers : Int := 0
  busy_stations : Int := 0
  high_wait_stations : Int := 0
  sustained_busy_stations : Int := 0
deriving Repr, DecidableEq

/-- One iteration of the station loop of `recommend_staffing_needs`:
stations with no queue data contribute nothing; otherwise the latest sample's
customer count and dwell time update the totals, and — when at least 4 of the
last 6 samples exist — a station with at least 3 samples of count ≥ 3 among
those last 6 counts as sustained-busy. -/
def staffStep (st : Store) (acc : StaffAcc) (sid : String) : StaffAcc :=
  let recent := get_recent_data st sid "queue_data" 6
  match recent.getLast? with
  | none => acc
  | some latest =>
    let cc := latest.data.customer_count.getD 0
    let dw := latest.data.average_dwell_time.getD 0
    let a1 := { acc with total_customers := acc.total_customers + cc }
    let a2 :=
      if 2 ≤ cc then { a1 with busy_stations := a1.busy_stations + 1 } else a1
    let a3 :=
      if 120 ≤ dw then { a2 with high_wait_stations := a2.high_wait_stations + 1 }
      else a2
    if 4 ≤ recent.length then
      if 3 ≤ (qcounts recent).countP (fun c => decide (3 ≤ c.getD 0)) then
        { a3 with sustained_busy_stations := a3.sustained_busy_stations + 1 }
      else a3
    else a3

/-- Whether one station makes `recommend_staffing_needs` raise (a `None`
count or dwell time compared with, or added to, a number raises `TypeError`);
the enclosing `except` then returns the empty list. -/
def staffRaises (st : Store) (sid : String) : Bool :=
  let recent := get_recent_data st sid "queue_data" 6
  match recent.getLast? with
  | none => false
  | some latest =>
    latest.data.customer_count.isNone || latest.data.average_dwell_time.isNone ||
      (decide (4 ≤ recent.length) && (qcounts recent).any Option.isNone)

/-- Models `DetectionEngine.recommend_staffing_needs`: compute the busy and
sustained-busy ratios over all known stations, recommend adding a cashier when
`busy_ratio ≥ 0.6` or `sustained_ratio ≥ 0.5`, and separately recommend
support staff when at least two stations' latest dwell time reaches
`LONG_WAIT_THRESHOLD = 120` s. -/
def recommend_staffing_needs (st : Store) (T : Int) : List StaffEvent :=
  let stations := get_all_stations st
  if stations.isEmpty then []
  else if stations.any (staffRaises st) then []
  else
    let acc := stations.foldl (staffStep st) {}
    let n : Rat := (stations.length : Rat)
    let busy_ratio : Rat := (acc.busy_stations : Rat) / n
    let sustained_ratio : Rat := (acc.sustained_busy_stations : Rat) / n
    let cashier : List StaffEvent :=
      if 3/5 ≤ busy_ratio ∨ 1/2 ≤ sustained_ratio then
        [StaffEvent.cashier
          { event_name := "Staffing Needs", staff_type := "Cashier",
            action := "ADD",
            reason := "Sustained high customer traffic detected",
            busy_stations := acc.busy_stations,
            sustained_busy_stations := acc.sustained_busy_stations,
            total_stations := (stations.length : Int),
            total_customers := acc.total_customers,
            busy_ratio := busy_ratio, sustained_ratio := sustained_ratio,
            timestamp := T,
            confidence := if 1/2 ≤ sustained_ratio then 8/10 else 75/100,
            severity :=
              if 4/5 ≤ busy_ratio ∨ 7/10 ≤ sustained_ratio then "HIGH"
              else "MEDIUM" }]
      else []
    let support : List StaffEvent :=
      if 2 ≤ acc.high_wait_stations then
        [StaffEvent.support
          { event_name := "Staffing Needs", staff_type := "Support Staff",
            action := "ADD",
            reason := "Extended wait times at multiple stations",
            affected_stations := acc.high_wait_stations,
            timestamp := T, confidence := 8/10, severity := "HIGH" }]
      else []
    cashier ++ support

/-- A dictionary read `m.get(k, [])`, made explicit as a state-passing
operation: unlike `defaultdict` subscripting (`m[k]`, which inserts an empty
deque for a missing key), `.get` leaves the dictionary untouched.  Every read
`find_correlations` performs is of this non-mutating form. -/
def bucketsGet (b : Buckets) (k : String) : List Entry × Buckets :=
  (getB b k, b)

/-- Models `find_correlations` with the store threaded through each dictionary read,
making any mutation of the store explicit in the returned state. -/
def find_correlations_st (st : Store) (sid : String) (ts : Int) :
    Correlations × Store :=
  let lo := ts - 10
  let hi := ts + 10
  let (ps, pb) := bucketsGet st.pos_transactions sid
  let (rs, rb) := bucketsGet st.rfid_readings sid
  let (qs, qb) := bucketsGet st.queue_data sid
  let (gs, gb) := bucketsGet st.product_recognition sid
  ({ pos_transactions := collectWindow lo hi ps,
     rfid_readings := collectWindow lo hi rs,
     queue_data := collectWindow lo hi qs,
     product_recognition := collectWindow lo hi gs },
   { st with pos_transactions := pb, rfid_readings := rb,
             queue_data := qb, product_recognition := gb })

/-- Models `detect_scanner_avoidance` with the store threaded through its only store
access (`find_correlations`); the loop itself only reads the local lists. -/
def detect_scanner_avoidance_st (st : Store) (sid : String) (T : Int) :
    Option ScannerFinding × Store :=
  let (c, st1) := find_correlations_st st sid T
  (scanLoop sid T c.pos_transactions c.rfid_readings, st1)

/-! ### Concrete records used by witnesses and counterexamples -/

/-- A bare POS transaction for station `"S1"` at time `t`. -/
def pdPos (t : Int) : ParsedData :=
  { dtype := some "pos_transaction", timestamp := some t,
    station_id := some "S1" }

/-- The store obtained by ingesting POS records at times 100, 0, 100: an
out-of-order arrival followed by a repeat of the newest timestamp. -/
def stOutOfOrder : Store :=
  ingestAll (emptyStore 30) [pdPos 100, pdPos 0, pdPos 100]

/-- Scenario A record: RFID `{sku: "X123", location: "IN_SCAN_AREA"}` at
`t = 100` for station `"SCC1"`. -/
def pdRfidA : ParsedData :=
  { dtype := some "rfid_reading", timestamp := some 100,
    station_id := some "SCC1", sku := some "X123",
    location := some "IN_SCAN_AREA" }

/-- Scenario A store: only the RFID record, no POS transaction at all. -/
def stScenarioA : Store := ingestAll (emptyStore 30) [pdRfidA]

/-- Scenario B catalog: expected price 20.0 for SKU `"B"`. -/
def catScenarioB : DataParser := { products_data := [("B", { price := 20 })] }

/-- Scenario B POS record: `{sku: "A", price: 5.0}` at `t = 100`. -/
def pdPosB : ParsedData :=
  { dtype := some "pos_transaction", timestamp := some 100,
    station_id := some "SCC1", sku := some "A", price := some 5 }

/-- Scenario B RFID record: `{sku: "B", location: "IN_SCAN_AREA"}` at
`t = 100`. -/
def pdRfidB : ParsedData :=
  { dtype := some "rfid_reading", timestamp := some 100,
    station_id := some "SCC1", sku := some "B",
    location := some "IN_SCAN_AREA" }

/-- Scenario B store. -/
def stScenarioB : Store := ingestAll (emptyStore 30) [pdPosB, pdRfidB]

/-- A queue sample for station `s` at time `t` with `c` customers and zero
dwell time. -/
def pdQueue (s : String) (t : Int) (c : Int) : ParsedData :=
  { dtype := some "queue_monitoring", timestamp := some t,
    station_id := some s, customer_count := some c,
    average_dwell_time := some 0 }

/-- Scenario C store: customer counts `[2,3,4,5,6,7]` at 5 s spacing for
station `"SCC2"`. -/
def stScenarioC : Store :=
  ingestAll (emptyStore 30)
    [pdQueue "SCC2" 0 2, pdQueue "SCC2" 5 3, pdQueue "SCC2" 10 4,
     pdQueue "SCC2" 15 5, pdQueue "SCC2" 20 6, pdQueue "SCC2" 25 7]

/-- Scenario D catalog: expected quantity 100 for SKU `"Z"`. -/
def catScenarioD : DataParser := { products_data := [("Z", { quantity := 100 })] }

/-- An inventory snapshot at `t = 100` with actual quantity `a` for `"Z"`. -/
def pdInv (a : Int) : ParsedData :=
  { dtype := some "inventory_snapshot", timestamp := some 100,
    inventory_data := [("Z", some a)] }

/-- Scenario D store with actual quantity 94. -/
def stScenarioD94 : Store := ingestAll (emptyStore 30) [pdInv 94]

/-- Scenario D store with actual quantity 96. -/
def stScenarioD96 : Store := ingestAll (emptyStore 30) [pdInv 96]

/-- A zero-weight catalog entry for SKU `"W0"`. -/
def catZeroWeight : DataParser := { products_data := [("W0", { weight := 0 })] }

/-- A POS transaction for `"W0"` with recorded weight 100 g. -/
def pdPosW0 : ParsedData :=
  { dtype := some "pos_transaction", timestamp := some 0,
    station_id := some "S1", sku := some "W0", weight_g := some 100 }

/-- Store holding only `pdPosW0`. -/
def stZeroWeight : Store := ingestAll (emptyStore 30) [pdPosW0]

/-- A catalog entry with weight 100 g for SKU `"W"`. -/
def catWeight100 : DataParser := { products_data := [("W", { weight := 100 })] }

/-- A POS transaction for `"W"` with recorded weight 160 g (60 g off). -/
def pdPosW160 : ParsedData :=
  { dtype := some "pos_transaction", timestamp := some 0,
    station_id := some "S1", sku := some "W", weight_g := some 160 }

/-- Store holding only `pdPosW160`. -/
def stWeight160 : Store := ingestAll (emptyStore 30) [pdPosW160]

/-- A POS transaction for `"W"` with recorded weight 150 g (exactly the 50 g
tolerance). -/
def pdPosW150 : ParsedData :=
  { dtype := some "pos_transaction", timestamp := some 0,
    station_id := some "S1", sku := some "W", weight_g := some 150 }

/-- Store holding only `pdPosW150`. -/
def stWeight150 : Store := ingestAll (emptyStore 30) [pdPosW150]

/-- A zero-expected-quantity catalog entry for SKU `"Z"`. -/
def catZeroQty : DataParser := { products_data := [("Z", { quantity := 0 })] }

/-- A snapshot with actual quantity 3 for `"Z"`. -/
def stZeroQty : Store :=
  ingestAll (emptyStore 30)
    [{ dtype := some "inventory_snapshot", timestamp := some 0,
       inventory_data := [("Z", some 3)] }]

/-- A single station whose six queue samples have counts `[3,3,3,0,0,0]`:
three busy samples early in the window, none among the last four. -/
def stSustained : Store :=
  ingestAll (emptyStore 30)
    [pdQueue "S1" 0 3, pdQueue "S1" 5 3, pdQueue "S1" 10 3,
     pdQueue "S1" 15 0, pdQueue "S1" 20 0, pdQueue "S1" 25 0]

/-! ### Dictionary lemmas -/

theorem lookupA_setA_self {α : Type} (m : List (String × α)) (k : String)
    (v : α) : lookupA (setA m k v) k = some v := by
  induction m with
  | nil => simp [setA, lookupA]
  | cons p rest ih =>
    by_cases h : p.1 = k
    · simp [setA, h, lookupA]
    · simp [setA, h, lookupA, ih]

theorem lookupA_setA_ne {α : Type} (m : List (String × α)) (k k' : String)
    (v : α) (h : k ≠ k') : lookupA (setA m k v) k' = lookupA m k' := by
  induction m with
  | nil => simp [setA, lookupA, h]
  | cons p rest ih =>
    by_cases hp : p.1 = k
    · simp [setA, hp, lookupA, h]
    · simp [setA, hp, lookupA, ih]

theorem mem_setA {α : Type} {m : List (String × α)} {k : String} {v : α}
    {p : String × α} (h : p ∈ setA m k v) : p = (k, v) ∨ p ∈ m := by
  induction m with
  | nil => simpa [setA] using h
  | cons q rest ih =>
    by_cases hq : q.1 = k
    · simp only [setA, hq, if_pos, List.mem_cons] at h
      rcases h with h | h
      · left; rw [h, ← hq]
      · right; exact List.mem_cons_of_mem _ h
    · simp only [setA, hq, if_neg, not_false_iff, List.mem_cons] at h
      rcases h with h | h
      · right; exact h ▸ List.mem_cons_self _ _
      · rcases ih h with h' | h'
        · exact Or.inl h'
        · exact Or.inr (List.mem_cons_of_mem _ h')

theorem lookupA_mem {α : Type} {m : List (String × α)} {k : String} {v : α}
    (h : lookupA m k = some v) : (k, v) ∈ m := by
  induction m with
  | nil => simp [lookupA] at h
  | cons q rest ih =>
    by_cases hq : q.1 = k
    · simp only [lookupA, hq, if_pos, Option.some.injEq] at h
      subst h; rw [← hq]; exact List.mem_cons_self _ _
    · simp only [lookupA, hq, if_neg, not_false_iff] at h
      exact List.mem_cons_of_mem _ (ih h)

theorem lookupA_map {α β : Type} (f : α → β) (m : List (String × α))
    (k : String) :
    lookupA (m.map (fun p => (p.1, f p.2))) k = (lookupA m k).map f := by
  induction m with
  | nil => simp [lookupA]
  | cons q rest ih =>
    by_cases hq : q.1 = k
    · simp [lookupA, hq]
    · simp [lookupA, hq, ih]

/-! ### The correlation window is an exact interval filter (C2) -/

theorem collectWindow_eq_filter (lo hi : Int) (l : List Entry) :
    collectWindow lo hi l =
      l.filter (fun e => decide (lo ≤ e.ts ∧ e.ts ≤ hi)) := by
  have aux : ∀ (l : List Entry) (acc : List Entry),
      l.foldl (fun acc e => if lo ≤ e.ts ∧ e.ts ≤ hi then acc ++ [e] else acc)
          acc
        = acc ++ l.filter (fun e => decide (lo ≤ e.ts ∧ e.ts ≤ hi)) := by
    intro l
    induction l with
    | nil => intro acc; simp
    | cons e rest ih =>
      intro acc
      by_cases h : lo ≤ e.ts ∧ e.ts ≤ hi
      · simp [h, ih, List.filter_cons]
      · simp [h, ih, List.filter_cons]
  simpa [collectWindow] using aux l []

/-- C2 — `find_correlations(S, T)` returns, in each of the four per-station
buckets, exactly the stored entries of `S` whose timestamp lies in the closed
interval `[T-10, T+10]`, in store order; and for a station present in none of
the bucket dictionaries it returns the structure with four empty lists (the
function is total: no exception). -/
theorem correlate_exact_interval (st : Store) (sid : String) (T : Int) :
    ((find_correlations st sid T).pos_transactions =
        (getB st.pos_transactions sid).filter
          (fun e => decide (T - 10 ≤ e.ts ∧ e.ts ≤ T + 10)) ∧
      (find_correlations st sid T).rfid_readings =
        (getB st.rfid_readings sid).filter
          (fun e => decide (T - 10 ≤ e.ts ∧ e.ts ≤ T + 10)) ∧
      (find_correlations st sid T).queue_data =
        (getB st.queue_data sid).filter
          (fun e => decide (T - 10 ≤ e.ts ∧ e.ts ≤ T + 10)) ∧
      (find_correlations st sid T).product_recognition =
        (getB st.product_recognition sid).filter
          (fun e => decide (T - 10 ≤ e.ts ∧ e.ts ≤ T + 10))) ∧
    ((lookupA st.pos_transactions sid = none ∧
      lookupA st.rfid_readings sid = none ∧
      lookupA st.queue_data sid = none ∧
      lookupA st.product_recognition sid = none) →
      find_correlations st sid T = ⟨[], [], [], []⟩) := by
  constructor
  · exact ⟨collectWindow_eq_filter _ _ _, collectWindow_eq_filter _ _ _,
      collectWindow_eq_filter _ _ _, collectWindow_eq_filter _ _ _⟩
  · intro ⟨h1, h2, h3, h4⟩
    simp [find_correlations, getB, h1, h2, h3, h4, collectWindow]

/-- Witness for C2: instantiated at a concrete store and an unknown
station. -/
theorem correlate_exact_interval_witness :
    find_correlations stScenarioA "NOPE" 100 = ⟨[], [], [], []⟩ :=
  (correlate_exact_interval stScenarioA "NOPE" 100).2 (by decide)

/-! ### Scanner avoidance is pure (C9) -/

/-- C9 — `detect_scanner_avoidance`, with every store access made explicit in
a threaded state, leaves the store exactly as it was (its reads are
non-inserting `.get` dictionary reads), and running it a second time on the
state left behind by the first run returns the same finding (or absence):
the detector is a pure function of the store snapshot. -/
theorem scanner_avoidance_pure (st : Store) (sid : String) (T : Int) :
    (detect_scanner_avoidance_st st sid T).2 = st ∧
    (detect_scanner_avoidance_st (detect_scanner_avoidance_st st sid T).2
        sid T).1 = (detect_scanner_avoidance_st st sid T).1 ∧
    (detect_scanner_avoidance_st (detect_scanner_avoidance_st st sid T).2
        sid T).2 = st ∧
    (detect_scanner_avoidance_st st sid T).1 =
      detect_scanner_avoidance st sid T := by
  refine ⟨rfl, rfl, rfl, rfl⟩

/-! ### Unknown stations (C10) -/

theorem routeData_status (st : Store) (d : ParsedData) (ts : Int) :
    (routeData st d ts).station_status = st.station_status ∧
    (routeData st d ts).last_activity = st.last_activity := by
  unfold routeData
  repeat' split
  all_goals exact ⟨rfl, rfl⟩

theorem sid_station_id {d : ParsedData} {s : String} (h : d.sid = some s) :
    d.station_id = some s := by
  unfold ParsedData.sid at h
  cases hs : d.station_id with
  | none => rw [hs] at h; simp at h
  | some a =>
    rw [hs] at h
    by_cases ha : a = ""
    · simp [ha] at h
    · simp [ha] at h
      rw [h]

theorem add_data_unknown_station (st : Store) (d : ParsedData) (sid : String)
    (hd : d.station_id ≠ some sid)
    (h1 : lookupA st.station_status sid = none)
    (h2 : lookupA st.last_activity sid = none) :
    lookupA (add_data st d).station_status sid = none ∧
    lookupA (add_data st d).last_activity sid = none := by
  cases ht : d.timestamp with
  | none => simp only [add_data, ht]; exact ⟨h1, h2⟩
  | some ts =>
    simp only [add_data, ht]
    have hr := routeData_status st d ts
    cases hs : d.sid with
    | none =>
      simp only [cleanupStore, updateStatus, hs]
      exact ⟨hr.1.symm ▸ h1, hr.2.symm ▸ h2⟩
    | some s =>
      have hne : s ≠ sid := by
        intro hcontra
        exact hd (hcontra ▸ sid_station_id hs)
      simp only [cleanupStore, updateStatus, hs]
      constructor
      · rw [lookupA_setA_ne _ _ _ _ hne, hr.1]; exact h1
      · rw [lookupA_setA_ne _ _ _ _ hne, hr.2]; exact h2

theorem ingest_unknown_station (ds : List ParsedData) (sid : String)
    (h : ∀ d ∈ ds, d.station_id ≠ some sid) :
    ∀ st : Store, lookupA st.station_status sid = none →
      lookupA st.last_activity sid = none →
      lookupA (ingestAll st ds).station_status sid = none ∧
      lookupA (ingestAll st ds).last_activity sid = none := by
  induction ds with
  | nil => intro st h1 h2; exact ⟨h1, h2⟩
  | cons d rest ih =>
    intro st h1 h2
    have hstep := add_data_unknown_station st d sid
      (h d (List.mem_cons_self _ _)) h1 h2
    exact ih (fun d' hd' => h d' (List.mem_cons_of_mem _ hd'))
      (add_data st d) hstep.1 hstep.2

/-- C10 — a station id that has never appeared in any ingested record is
reported as `("Unknown", none)` by `get_station_status`, with no error. -/
theorem station_status_unknown (w : Int) (ds : List ParsedData) (sid : String)
    (h : ∀ d ∈ ds, d.station_id ≠ some sid) :
    get_station_status (ingestAll (emptyStore w) ds) sid = ("Unknown", none) := by
  have hinv := ingest_unknown_station ds sid h (emptyStore w) rfl rfl
  simp [get_station_status, hinv.1, hinv.2]

/-- Witness for C10: after ingesting the scenario-A record (station
`"SCC1"`), station `"SCC9"` is unknown. -/
theorem station_status_unknown_witness :
    get_station_status (ingestAll (emptyStore 30) [pdRfidA]) "SCC9" =
      ("Unknown", none) :=
  station_status_unknown 30 [pdRfidA] "SCC9" (by decide)

/-! ### Scanner avoidance (C3) -/

/-- An RFID reading in the correlation window that qualifies
(`IN_SCAN_AREA`, truthy non-`'null'` SKU) but has no matching POS
transaction in the same window. -/
def unmatchedQual (pos : List Entry) (r : Entry) : Bool :=
  match rfidQualifies r with
  | some s => !(posHasSku pos s)
  | none => false

theorem scanLoop_eq_find (sid : String) (T : Int) (pos : List Entry) :
    ∀ l : List Entry,
      scanLoop sid T pos l =
        (l.find? (unmatchedQual pos)).map
          (fun r => ⟨"Scanner Avoidance", sid, (rfidQualifies r).getD "", T,
                     8/10, "HIGH"⟩) := by
  intro l
  induction l with
  | nil => rfl
  | cons r rest ih =>
    cases hq : rfidQualifies r with
    | none =>
      have hu : ¬ unmatchedQual pos r = true := by simp [unmatchedQual, hq]
      rw [List.find?_cons_of_neg _ hu]
      simpa [scanLoop, hq] using ih
    | some s =>
      cases hp : posHasSku pos s with
      | true =>
        have hu : ¬ unmatchedQual pos r = true := by
          simp [unmatchedQual, hq, hp]
        rw [List.find?_cons_of_neg _ hu]
        simpa [scanLoop, hq, hp] using ih
      | false =>
        have hu : unmatchedQual pos r = true := by
          simp [unmatchedQual, hq, hp]
        rw [List.find?_cons_of_pos _ hu]
        simp [scanLoop, hq, hp]

/-- C3 — `detect_scanner_avoidance` returns exactly one HIGH-severity
`"Scanner Avoidance"` finding whenever the 10-second correlation window
around the instant holds an RFID reading at `IN_SCAN_AREA` with a truthy,
non-`'null'` SKU that no POS transaction in the same window matches, and the
finding's SKU is that of the *first* such unmatched reading in store order
(`List.find?`); otherwise it returns nothing.  In particular (Scenario A):
ingesting RFID `{sku: "X123", location: "IN_SCAN_AREA"}` at `t = 100` for
station `"SCC1"` with no POS transaction at all yields exactly one finding
for `SCC1`/`X123`. -/
theorem scanner_avoidance_first_unmatched :
    (∀ (st : Store) (sid : String) (T : Int),
      detect_scanner_avoidance st sid T =
        ((find_correlations st sid T).rfid_readings.find?
            (unmatchedQual (find_correlations st sid T).pos_transactions)).map
          (fun r => ⟨"Scanner Avoidance", sid, (rfidQualifies r).getD "", T,
                     8/10, "HIGH"⟩)) ∧
    detect_scanner_avoidance stScenarioA "SCC1" 100 =
      some ⟨"Scanner Avoidance", "SCC1", "X123", 100, 8/10, "HIGH"⟩ := by
  constructor
  · intro st sid T
    exact scanLoop_eq_find sid T _ _
  · decide

/-! ### Barcode switching (C4) -/

theorem barcodeInner_eq_find (cat : DataParser) (sid : String) (T : Int)
    (ps : String) (pp : Rat) :
    ∀ l : List Entry,
      barcodeInner cat sid T ps pp l =
        (l.find? (bcQual cat ps pp)).map (mkBarcodeFinding cat sid T ps pp) := by
  intro l
  induction l with
  | nil => rfl
  | cons r rest ih =>
    cases hb : bcQual cat ps pp r with
    | false =>
      rw [List.find?_cons_of_neg _ (by simp [hb])]
      simpa [barcodeInner, hb] using ih
    | true =>
      rw [List.find?_cons_of_pos _ hb]
      simp [barcodeInner, hb]

theorem bcQual_spec {cat : DataParser} {ps : String} {pp : Rat} {r : Entry}
    (h : bcQual cat ps pp r = true) :
    ∃ rs, rfidQualifies r = some rs ∧ rs ≠ ps ∧
      ∃ ep, get_expected_price cat rs = some ep ∧ 0 < ep ∧ pp / ep < 1/2 := by
  unfold bcQual at h
  split at h
  next rs hq =>
    split at h
    next hps => simp at h
    next hps =>
      split at h
      next ep hep =>
        have h' := of_decide_eq_true h
        exact ⟨rs, hq, hps, ep, hep, h'.1, h'.2⟩
      next => simp at h
  next => simp at h

theorem mkBarcodeFinding_fields {cat : DataParser} {sid : String} {T : Int}
    {ps rs : String} {pp ep : Rat} {r : Entry}
    (hq : rfidQualifies r = some rs)
    (hep : get_expected_price cat rs = some ep) :
    mkBarcodeFinding cat sid T ps pp r =
      ⟨"Barcode Switching", sid, rs, ps, T, ep, pp, ep - pp, 9/10,
       "CRITICAL"⟩ := by
  simp [mkBarcodeFinding, hq, hep]

theorem barcodeOuter_sound (cat : DataParser) (sid : String) (T : Int)
    (rfids : List Entry) :
    ∀ (poss : List Entry) (f : BarcodeFinding),
      barcodeOuter cat sid T rfids poss = some f →
      ∃ p ∈ poss, ∃ ps pp, p.data.sku = some ps ∧ ps ≠ "" ∧
        p.data.price = some pp ∧
        ∃ r ∈ rfids, bcQual cat ps pp r = true ∧
          f = mkBarcodeFinding cat sid T ps pp r := by
  intro poss
  induction poss with
  | nil => intro f h; simp [barcodeOuter] at h
  | cons p rest ih =>
    intro f h
    rw [barcodeOuter] at h
    split at h
    next ps pp hsku hpr =>
      split at h
      next hps =>
        rcases ih f h with ⟨q, hq, rest'⟩
        exact ⟨q, List.mem_cons_of_mem _ hq, rest'⟩
      next hps =>
        rw [barcodeInner_eq_find] at h
        split at h
        next f' hf' =>
          rcases Option.map_eq_some'.mp hf' with ⟨r, hr', hmk⟩
          have hr := List.mem_of_find?_eq_some hr'
          have hb := List.find?_some hr'
          refine ⟨p, List.mem_cons_self _ _, ps, pp, hsku, hps, hpr, r, hr,
            hb, ?_⟩
          rw [← hmk] at h
          exact (Option.some_inj.mp h).symm
        next hf' =>
          rcases ih f h with ⟨q, hq, rest'⟩
          exact ⟨q, List.mem_cons_of_mem _ hq, rest'⟩
    next hother =>
      rcases ih f h with ⟨q, hq, rest'⟩
      exact ⟨q, List.mem_cons_of_mem _ hq, rest'⟩

theorem barcodeOuter_isSome (cat : DataParser) (sid : String) (T : Int)
    (rfids : List Entry) :
    ∀ poss : List Entry,
      (∃ p ∈ poss, ∃ ps pp, p.data.sku = some ps ∧ ps ≠ "" ∧
        p.data.price = some pp ∧ ∃ r ∈ rfids, bcQual cat ps pp r = true) →
      (barcodeOuter cat sid T rfids poss).isSome := by
  intro poss
  induction poss with
  | nil => rintro ⟨p, hp, _⟩; simp at hp
  | cons p rest ih =>
    rintro ⟨q, hq, ps, pp, hsku, hne, hpr, r, hr, hb⟩
    rw [barcodeOuter]
    rcases List.mem_cons.mp hq with rfl | hq'
    · simp only [hsku, hpr]
      rw [if_neg hne, barcodeInner_eq_find]
      have hs : (rfids.find? (bcQual cat ps pp)).isSome := by
        rw [List.find?_isSome]
        exact ⟨r, hr, hb⟩
      rcases Option.isSome_iff_exists.mp hs with ⟨r', hf⟩
      simp [hf]
    · have hrest := ih ⟨q, hq', ps, pp, hsku, hne, hpr, r, hr, hb⟩
      split
      next ps' pp' hs' hp' =>
        split
        next => exact hrest
        next =>
          split
          next f' hf' => rfl
          next => exact hrest
      next => exact hrest

/-- C4 — whenever the correlation window holds a POS transaction (truthy SKU,
present price) and an RFID reading at `IN_SCAN_AREA` with a different truthy,
non-`'null'` SKU whose catalog price exists and is positive and satisfies
`price < 0.5 × expected`, `detect_barcode_switching` emits a CRITICAL
`"Barcode Switching"` finding whose `actual_sku` is the RFID SKU,
`scanned_sku` is the POS SKU, and `price_difference` is the expected price
minus the transaction price, all taken from one such qualifying pair of the
window.  In particular (Scenario B): POS `{sku: "A", price: 5.0}` and RFID
`{sku: "B", location: "IN_SCAN_AREA"}` both at `t = 100` with catalog price
`20.0` for `"B"` yield the finding with `price_difference = 15.0`. -/
theorem barcode_switching_fires :
    (∀ (cat : DataParser) (st : Store) (sid : String) (T : Int),
      (∃ p ∈ (find_correlations st sid T).pos_transactions, ∃ ps pp,
          p.data.sku = some ps ∧ ps ≠ "" ∧ p.data.price = some pp ∧
          ∃ r ∈ (find_correlations st sid T).rfid_readings,
            bcQual cat ps pp r = true) →
      ∃ f, detect_barcode_switching cat st sid T = some f ∧
        f.event_name = "Barcode Switching" ∧ f.severity = "CRITICAL" ∧
        ∃ p ∈ (find_correlations st sid T).pos_transactions,
        ∃ r ∈ (find_correlations st sid T).rfid_readings,
          p.data.sku = some f.scanned_sku ∧
          p.data.price = some f.actual_price ∧
          rfidQualifies r = some f.actual_sku ∧
          f.actual_sku ≠ f.scanned_sku ∧
          get_expected_price cat f.actual_sku = some f.expected_price ∧
          0 < f.expected_price ∧
          f.actual_price < 1/2 * f.expected_price ∧
          f.price_difference = f.expected_price - f.actual_price) ∧
    detect_barcode_switching catScenarioB stScenarioB "SCC1" 100 =
      some ⟨"Barcode Switching", "SCC1", "B", "A", 100, 20, 5, 15, 9/10,
            "CRITICAL"⟩ := by
  constructor
  · intro cat st sid T hexists
    have hsome := barcodeOuter_isSome cat sid T
      (find_correlations st sid T).rfid_readings
      (find_correlations st sid T).pos_transactions hexists
    rcases ho : barcodeOuter cat sid T (find_correlations st sid T).rfid_readings
        (find_correlations st sid T).pos_transactions with _ | f
    · rw [ho] at hsome; simp at hsome
    · rcases barcodeOuter_sound cat sid T _ _ f ho with
        ⟨p, hp, ps, pp, hsku, hne, hpr, r, hr, hb, hf⟩
      rcases bcQual_spec hb with ⟨rs, hqual, hrs, ep, hep, hpos, hlt⟩
      have hff : f = ⟨"Barcode Switching", sid, rs, ps, T, ep, pp, ep - pp,
          9/10, "CRITICAL"⟩ := by
        rw [hf, mkBarcodeFinding_fields hqual hep]
      refine ⟨f, ho, ?_, ?_, p, hp, r, hr, ?_, ?_, ?_, ?_, ?_, ?_, ?_, ?_⟩
      · rw [hff]
      · rw [hff]
      · rw [hff]; exact hsku
      · rw [hff]; exact hpr
      · rw [hff]; exact hqual
      · rw [hff]; exact hrs
      · rw [hff]; exact hep
      · rw [hff]; exact hpos
      · rw [hff]
        have hd := (div_lt_iff₀ hpos).mp hlt
        show pp < 1/2 * ep
        linarith
      · rw [hff]
  · decide

/-- Witness for C4: the general statement applied to the Scenario B store and
catalog, with the qualifying POS/RFID pair supplied explicitly. -/
theorem barcode_switching_fires_witness :
    ∃ f, detect_barcode_switching catScenarioB stScenarioB "SCC1" 100 = some f ∧
      f.event_name = "Barcode Switching" ∧ f.severity = "CRITICAL" ∧
      ∃ p ∈ (find_correlations stScenarioB "SCC1" 100).pos_transactions,
      ∃ r ∈ (find_correlations stScenarioB "SCC1" 100).rfid_readings,
        p.data.sku = some f.scanned_sku ∧
        p.data.price = some f.actual_price ∧
        rfidQualifies r = some f.actual_sku ∧
        f.actual_sku ≠ f.scanned_sku ∧
        get_expected_price catScenarioB f.actual_sku = some f.expected_price ∧
        0 < f.expected_price ∧
        f.actual_price < 1/2 * f.expected_price ∧
        f.price_difference = f.expected_price - f.actual_price :=
  barcode_switching_fires.1 catScenarioB stScenarioB "SCC1" 100
    ⟨⟨100, pdPosB⟩, by decide, "A", 5, by decide, by decide, by decide,
     ⟨100, pdRfidB⟩, by decide, by decide⟩

/-! ### Weight discrepancy (C5) -/

/-- C5 counterexample — the claim asserts that a POS transaction with a
recorded weight and *any* catalog entry for its SKU fires iff
`|actual − expected| > 50 g`.  With a catalog entry of expected weight 0 and
actual weight 100 g the difference is 100 g > 50 g, yet the source skips the
entry (`if expected_weight and expected_weight > 0`) and emits nothing. -/
theorem weight_discrepancy_counterexample :
    get_expected_weight catZeroWeight "W0" = some 0 ∧
    (50:Rat) < |(100:Rat) - 0| ∧
    detect_weight_discrepancies catZeroWeight stZeroWeight "S1" 0 = none := by
  decide

/-- C5 (amended: the catalog entry's expected weight must be positive, as the
source skips truthy-false or non-positive expected weights) — for a window
holding exactly one POS transaction with a truthy SKU, a recorded weight and
a positive catalog weight, `detect_weight_discrepancies` emits a finding iff
`|actual − expected| > 50` (exactly 50 does not fire), and the finding's
severity is HIGH when the relative deviation exceeds 20 % and MEDIUM
otherwise. -/
theorem weight_discrepancy_tolerance :
    ∀ (cat : DataParser) (st : Store) (sid : String) (T : Int) (p : Entry)
      (s : String) (aw ew : Rat),
      (find_correlations st sid T).pos_transactions = [p] →
      p.data.sku = some s → s ≠ "" → p.data.weight_g = some aw →
      get_expected_weight cat s = some ew → 0 < ew →
      (((∃ f, detect_weight_discrepancies cat st sid T = some f) ↔
          50 < |aw - ew|) ∧
       (50 < |aw - ew| →
         detect_weight_discrepancies cat st sid T =
           some ⟨"Weight Discrepancies", sid, s, ew, aw, |aw - ew|,
                 |aw - ew| / ew * 100, T, 85/100,
                 if 20 < |aw - ew| / ew * 100 then "HIGH" else "MEDIUM"⟩)) := by
  intro cat st sid T p s aw ew hwin hsku hne hw hew hpos
  have hload : detect_weight_discrepancies cat st sid T =
      (if 50 < |aw - ew| then
        some ⟨"Weight Discrepancies", sid, s, ew, aw, |aw - ew|,
              |aw - ew| / ew * 100, T, 85/100,
              if 20 < |aw - ew| / ew * 100 then "HIGH" else "MEDIUM"⟩
      else none) := by
    show weightLoop cat sid T (find_correlations st sid T).pos_transactions = _
    rw [hwin, weightLoop]
    simp only [hsku, hw]
    rw [if_neg hne]
    simp only [hew]
    rw [if_pos hpos]
    by_cases h50 : 50 < |aw - ew|
    · simp only [h50, if_true]
    · simp only [h50, if_false]
      rfl
  refine ⟨⟨?_, ?_⟩, ?_⟩
  · rintro ⟨f, hf⟩
    by_contra h50
    rw [hload, if_neg h50] at hf
    exact Option.noConfusion hf
  · intro h50
    exact ⟨_, by rw [hload, if_pos h50]⟩
  · intro h50
    rw [hload, if_pos h50]

/-- Witness for C5: a 60 g discrepancy (on a 100 g expected weight) fires
with HIGH severity, while a discrepancy of exactly 50 g does not fire. -/
theorem weight_discrepancy_tolerance_witness :
    detect_weight_discrepancies catWeight100 stWeight160 "S1" 0 =
      some ⟨"Weight Discrepancies", "S1", "W", 100, 160, |(160:Rat) - 100|,
            |(160:Rat) - 100| / 100 * 100, 0, 85/100,
            if 20 < |(160:Rat) - 100| / 100 * 100 then "HIGH" else "MEDIUM"⟩ ∧
    ¬ (∃ f, detect_weight_discrepancies catWeight100 stWeight150 "S1" 0 =
        some f) := by
  constructor
  · exact (weight_discrepancy_tolerance catWeight100 stWeight160 "S1" 0
      ⟨0, pdPosW160⟩ "W" 160 100 (by decide) (by decide) (by decide)
      (by decide) (by decide) (by decide)).2 (by decide)
  · intro hf
    have h := (weight_discrepancy_tolerance catWeight100 stWeight150 "S1" 0
      ⟨0, pdPosW150⟩ "W" 150 100 (by decide) (by decide) (by decide)
      (by decide) (by decide) (by decide)).1.mp hf
    revert h
    decide

/-! ### Inventory discrepancy (C6) -/

/-- The claim's variance formula: percentage of the expected quantity when
the expected quantity is at least 10, else the ×10-scaled absolute
difference. -/
def invVariance (actual expected : Int) : Rat :=
  if 10 ≤ expected then
    ((|actual - expected| : Int) : Rat) / (expected : Rat) * 100
  else ((|actual - expected| : Int) : Rat) * 10

/-- C6 counterexample — the claim asserts that every SKU of the latest
snapshot with a catalog entry fires iff its variance exceeds 5.  With a
catalog entry of expected quantity 0 and actual quantity 3, the claim's
variance is `|3 − 0| × 10 = 30 > 5`, yet the source skips non-positive
expected quantities and emits nothing. -/
theorem inventory_discrepancy_counterexample :
    (get_product_info catZeroQty "Z").isSome = true ∧
    5 < invVariance 3 0 ∧
    detect_inventory_discrepancies catZeroQty stZeroQty 0 = [] := by
  decide

theorem foldl_invAppend (cat : DataParser) (T : Int) :
    ∀ (l : List (String × Option Int)) (acc : List InvFinding),
      l.foldl (invAppend cat T) acc = acc ++ l.filterMap (invCheck cat T) := by
  intro l
  induction l with
  | nil => intro acc; simp
  | cons x xs ih =>
    intro acc
    cases hg : invCheck cat T x with
    | none => simp [invAppend, hg, ih, List.filterMap_cons]
    | some f => simp [invAppend, hg, ih, List.filterMap_cons]

/-- The finding dict appended by `detect_inventory_discrepancies` for SKU
`sku` with actual quantity `a` and catalog entry `info`, expressed through
the claim's variance formula. -/
def mkInvFinding (T : Int) (sku : String) (a : Int) (info : Product) :
    InvFinding :=
  { event_name := "Inventory Discrepancy", sku := sku,
    product_name := "Unknown",
    expected_inventory := info.quantity, actual_inventory := a,
    difference := a - info.quantity, timestamp := T,
    variance_percent := invVariance a info.quantity, confidence := 8/10,
    severity :=
      if 20 < invVariance a info.quantity then "CRITICAL"
      else if 10 < invVariance a info.quantity then "HIGH"
      else "MEDIUM" }

theorem invCheck_closed (cat : DataParser) (T : Int) (sku : String)
    (aq : Option Int) :
    invCheck cat T (sku, aq) =
      (match aq with
      | none => none
      | some a =>
        match get_product_info cat sku with
        | none => none
        | some info =>
          if info.quantity ≤ 0 then none
          else if 5 < invVariance a info.quantity then
            some (mkInvFinding T sku a info)
          else none) := rfl

theorem invCheck_eq_some_iff (cat : DataParser) (T : Int) (sku : String)
    (aq : Option Int) (f : InvFinding) :
    invCheck cat T (sku, aq) = some f ↔
      ∃ a, aq = some a ∧
      ∃ info, get_product_info cat sku = some info ∧ 0 < info.quantity ∧
        5 < invVariance a info.quantity ∧ f = mkInvFinding T sku a info := by
  rw [invCheck_closed]
  cases aq with
  | none => simp
  | some a =>
    cases hinfo : get_product_info cat sku with
    | none => simp
    | some info =>
      dsimp only
      by_cases hq0 : info.quantity ≤ 0
      · rw [if_pos hq0]
        simp only [Option.some.injEq]
        constructor
        · intro h; simp at h
        · rintro ⟨a', ha', info', hinfo', hq', _⟩
          rw [← hinfo'] at hq'
          exact absurd hq' (not_lt.mpr hq0)
      · rw [if_neg hq0]
        by_cases h5 : 5 < invVariance a info.quantity
        · rw [if_pos h5]
          constructor
          · intro h
            exact ⟨a, rfl, info, rfl, lt_of_not_le hq0, h5,
              (Option.some_inj.mp h).symm⟩
          · rintro ⟨a', ha', info', hinfo', _, _, hf⟩
            rw [Option.some_inj.mp ha'.symm, Option.some_inj.mp hinfo'.symm]
              at hf
            rw [hf]
        · rw [if_neg h5]
          constructor
          · intro h; simp at h
          · rintro ⟨a', ha', info', hinfo', _, hv', _⟩
            rw [Option.some_inj.mp ha'.symm, Option.some_inj.mp hinfo'.symm]
              at hv'
            exact absurd hv' h5

/-- C6 (amended: the catalog entry's expected quantity must be positive; the
source skips `None` or non-positive expected quantities) — a finding is
emitted for exactly the SKUs of the latest snapshot with a present actual
quantity and a positive catalog quantity whose variance
(`|diff|/expected×100` when expected ≥ 10, else `|diff|×10`) exceeds 5, with
severity CRITICAL above 20, HIGH above 10, else MEDIUM.  In particular
(Scenario D): `expected = 100, actual = 94` (variance 6 %) yields exactly one
MEDIUM finding and `expected = 100, actual = 96` (variance 4 %) yields no
finding. -/
theorem inventory_discrepancy_fires :
    (∀ (cat : DataParser) (st : Store) (T : Int) (f : InvFinding),
      f ∈ detect_inventory_discrepancies cat st T ↔
        ∃ snap, get_latest_inventory st = some snap ∧
        ∃ q ∈ snap.data.inventory_data, ∃ a, q.2 = some a ∧
        ∃ info, get_product_info cat q.1 = some info ∧ 0 < info.quantity ∧
          5 < invVariance a info.quantity ∧
          f = mkInvFinding T q.1 a info) ∧
    detect_inventory_discrepancies catScenarioD stScenarioD94 100 =
      [⟨"Inventory Discrepancy", "Z", "Unknown", 100, 94, -6, 100, 6, 8/10,
        "MEDIUM"⟩] ∧
    detect_inventory_discrepancies catScenarioD stScenarioD96 100 = [] := by
  refine ⟨?_, by decide, by decide⟩
  intro cat st T f
  unfold detect_inventory_discrepancies
  cases hsnap : get_latest_inventory st with
  | none => simp
  | some snap =>
    dsimp only
    rw [foldl_invAppend]
    simp only [List.nil_append, List.mem_filterMap]
    constructor
    · rintro ⟨q, hq, hchk⟩
      exact ⟨snap, rfl, q, hq, (invCheck_eq_some_iff cat T q.1 q.2 f).mp hchk⟩
    · rintro ⟨snap', hsnap', q, hq, rest⟩
      rw [← Option.some_inj.mp hsnap'] at hq
      exact ⟨q, hq, (invCheck_eq_some_iff cat T q.1 q.2 f).mpr rest⟩

/-- Witness for C6: the general characterization applied to the Scenario D
store, exhibiting the fired finding's membership. -/
theorem inventory_discrepancy_fires_witness :
    (⟨"Inventory Discrepancy", "Z", "Unknown", 100, 94, -6, 100, 6, 8/10,
      "MEDIUM"⟩ : InvFinding) ∈
      detect_inventory_discrepancies catScenarioD stScenarioD94 100 :=
  (inventory_discrepancy_fires.1 catScenarioD stScenarioD94 100 _).mpr
    ⟨⟨100, pdInv 94⟩, by decide, ("Z", some 94), by decide, 94, rfl,
     { quantity := 100 }, by decide, by decide, by decide, by decide⟩

/-! ### Long queue length (C7) -/

/-- C7 — `detect_long_queue_length`, on a window of at least 3 (up to 6)
queue samples all carrying a customer count, classifies the trend as
`"growing"` exactly when the last count exceeds both the first and the
second-to-last count, computes `duration_seconds` as 5 × the number of
samples whose count meets the threshold 3, fires iff the latest count is at
least 3 or the duration is at least 15 s, and escalates severity
(count ≥ 7, or count ≥ 5 while growing ⇒ CRITICAL; count ≥ 5 or
duration ≥ 25 ⇒ HIGH; else MEDIUM).  In particular (Scenario C): counts
`[2,3,4,5,6,7]` at 5 s spacing yield a `"growing"` CRITICAL finding. -/
theorem long_queue_length_trend :
    (∀ (st : Store) (sid : String) (T : Int) (latest : Entry),
      (get_recent_data st sid "queue_data" 6).getLast? = some latest →
      3 ≤ (get_recent_data st sid "queue_data" 6).length →
      (qcounts (get_recent_data st sid "queue_data" 6)).any Option.isNone
          = false →
      detect_long_queue_length st sid T =
        (let counts := (qcounts (get_recent_data st sid "queue_data" 6)).map
            (fun c => c.getD 0)
         let cc := (counts.getLast?).getD 0
         let c0 := (counts.head?).getD 0
         let c1 := ((counts.dropLast).getLast?).getD 0
         let trend := if c0 < cc ∧ c1 < cc then "growing"
           else if cc < c0 ∧ cc < c1 then "shrinking" else "stable"
         let dur : Int := 5 * (counts.countP (fun c => decide (3 ≤ c)) : Int)
         if 3 ≤ cc ∨ 15 ≤ dur then
           some { event_name := "Long Queue Length", station_id := sid,
                  num_of_customers := cc,
                  average_dwell_time := latest.data.average_dwell_time,
                  queue_trend := trend, duration_seconds := dur,
                  timestamp := T,
                  confidence := if trend = "growing" then 9/10 else 85/100,
                  severity :=
                    if 7 ≤ cc ∨ (5 ≤ cc ∧ trend = "growing") then "CRITICAL"
                    else if 5 ≤ cc ∨ 25 ≤ dur then "HIGH"
                    else "MEDIUM" }
         else none)) ∧
    detect_long_queue_length stScenarioC "SCC2" 25 =
      some ⟨"Long Queue Length", "SCC2", 7, some 0, "growing", 25, 25, 9/10,
            "CRITICAL"⟩ := by
  constructor
  · intro st sid T latest hl h3 hn
    unfold detect_long_queue_length
    dsimp only
    rw [hl]
    dsimp only
    rw [if_pos h3, if_neg (by simp [hn])]
  · decide

/-- Witness for C7: the characterization applied to the Scenario C store,
then evaluated. -/
theorem long_queue_length_trend_witness :
    detect_long_queue_length stScenarioC "SCC2" 0 =
      some ⟨"Long Queue Length", "SCC2", 7, some 0, "growing", 25, 0, 9/10,
            "CRITICAL"⟩ := by
  have h := long_queue_length_trend.1 stScenarioC "SCC2" 0
    ⟨25, pdQueue "SCC2" 25 7⟩ (by decide) (by decide) (by decide)
  rw [h]
  decide

/-! ### Staffing needs (C8) -/

/-- The latest queue sample of a station,
`get_recent_data(sid, 'queue_data', 6)[-1]`. -/
def stationLatest (st : Store) (sid : String) : Option Entry :=
  (get_recent_data st sid "queue_data" 6).getLast?

/-- A station whose latest queue sample shows at least 2 customers
(`customer_count >= 2`). -/
def busyP (st : Store) (sid : String) : Bool :=
  match stationLatest st sid with
  | some e => decide (2 ≤ e.data.customer_count.getD 0)
  | none => false

/-- A station whose latest dwell time reaches the 120 s wait threshold
(`dwell_time >= LONG_WAIT_THRESHOLD`). -/
def waitP (st : Store) (sid : String) : Bool :=
  match stationLatest st sid with
  | some e => decide (120 ≤ e.data.average_dwell_time.getD 0)
  | none => false

/-- A sustained-busy station as the source computes it: at least 4 of the
last 6 queue samples exist, and at least 3 samples *among those up-to-6*
show a count of at least 3. -/
def sustP (st : Store) (sid : String) : Bool :=
  match stationLatest st sid with
  | some _ =>
    decide (4 ≤ (get_recent_data st sid "queue_data" 6).length) &&
      decide (3 ≤ (qcounts (get_recent_data st sid "queue_data" 6)).countP
        (fun c => decide (3 ≤ c.getD 0)))
  | none => false

/-- Modelled from the spec: the claim's sustained-busy station, "busy in at
least 3 of the last 4 queue samples".  The source deviates from this (it
counts busy samples over the last 6, see `sustP`). -/
def sustP4 (st : Store) (sid : String) : Bool :=
  decide (3 ≤ (qcounts (get_recent_data st sid "queue_data" 4)).countP
    (fun c => decide (3 ≤ c.getD 0)))

/-- The latest customer count a station contributes to `total_customers`
(0 for a station with no queue data). -/
def custOf (st : Store) (sid : String) : Int :=
  match stationLatest st sid with
  | some e => e.data.customer_count.getD 0
  | none => 0

/-- Whether a staffing event is the `'Cashier'` recommendation. -/
def isCashier : StaffEvent → Bool
  | StaffEvent.cashier _ => true
  | StaffEvent.support _ => false

/-- C8 counterexample — one station whose six queue counts are
`[3,3,3,0,0,0]`: its last four samples contain only one busy sample, so the
claim's `sustained_ratio` (≥3 busy of the last 4) is 0 and its `busy_ratio`
is 0, hence the claim predicts no "add cashier" finding; yet the source
counts 3 busy samples among the last *six* and emits the cashier
recommendation. -/
theorem staffing_needs_counterexample :
    (recommend_staffing_needs stSustained 25).any isCashier = true ∧
    (get_all_stations stSustained).countP (busyP stSustained) = 0 ∧
    (get_all_stations stSustained).countP (sustP4 stSustained) = 0 := by
  decide

theorem staffStep_fields (st : Store) (acc : StaffAcc) (sid : String) :
    (staffStep st acc sid).total_customers =
      acc.total_customers + custOf st sid ∧
    (staffStep st acc sid).busy_stations =
      acc.busy_stations + (if busyP st sid then 1 else 0) ∧
    (staffStep st acc sid).high_wait_stations =
      acc.high_wait_stations + (if waitP st sid then 1 else 0) ∧
    (staffStep st acc sid).sustained_busy_stations =
      acc.sustained_busy_stations + (if sustP st sid then 1 else 0) := by
  unfold staffStep custOf busyP waitP sustP stationLatest
  cases hl : (get_recent_data st sid "queue_data" 6).getLast? with
  | none => simp [hl]
  | some latest =>
    dsimp only
    rw [hl]
    dsimp only
    by_cases hb : 2 ≤ latest.data.customer_count.getD 0 <;>
    by_cases hw : 120 ≤ latest.data.average_dwell_time.getD 0 <;>
    by_cases h4 : 4 ≤ (get_recent_data st sid "queue_data" 6).length <;>
    by_cases h3 : 3 ≤ (qcounts (get_recent_data st sid "queue_data" 6)).countP
      (fun c => decide (3 ≤ c.getD 0)) <;>
    simp [hb, hw, h4, h3]

theorem foldl_staff_total (st : Store) :
    ∀ (l : List String) (acc : StaffAcc),
      (l.foldl (staffStep st) acc).total_customers =
        acc.total_customers + (l.map (custOf st)).sum := by
  intro l
  induction l with
  | nil => intro acc; simp
  | cons sid rest ih =>
    intro acc
    rw [List.foldl_cons, ih, (staffStep_fields st acc sid).1]
    simp [add_assoc]

theorem foldl_staff_busy (st : Store) :
    ∀ (l : List String) (acc : StaffAcc),
      (l.foldl (staffStep st) acc).busy_stations =
        acc.busy_stations + (l.countP (busyP st) : Int) := by
  intro l
  induction l with
  | nil => intro acc; simp
  | cons sid rest ih =>
    intro acc
    rw [List.foldl_cons, ih, (staffStep_fields st acc sid).2.1,
      List.countP_cons]
    cases hb : busyP st sid <;> simp [hb] <;> push_cast <;> ring

theorem foldl_staff_wait (st : Store) :
    ∀ (l : List String) (acc : StaffAcc),
      (l.foldl (staffStep st) acc).high_wait_stations =
        acc.high_wait_stations + (l.countP (waitP st) : Int) := by
  intro l
  induction l with
  | nil => intro acc; simp
  | cons sid rest ih =>
    intro acc
    rw [List.foldl_cons, ih, (staffStep_fields st acc sid).2.2.1,
      List.countP_cons]
    cases hb : waitP st sid <;> simp [hb] <;> push_cast <;> ring

theorem foldl_staff_sustained (st : Store) :
    ∀ (l : List String) (acc : StaffAcc),
      (l.foldl (staffStep st) acc).sustained_busy_stations =
        acc.sustained_busy_stations + (l.countP (sustP st) : Int) := by
  intro l
  induction l with
  | nil => intro acc; simp
  | cons sid rest ih =>
    intro acc
    rw [List.foldl_cons, ih, (staffStep_fields st acc sid).2.2.2,
      List.countP_cons]
    cases hb : sustP st sid <;> simp [hb] <;> push_cast <;> ring

/-- C8 (amended: the source's sustained-busy stations are those with at
least 3 busy samples among their last *six* queue samples — provided at
least 4 exist — not among their last four; and "wait time over the
threshold" is `≥ 120 s` of the latest sample) — for a non-empty station set
with well-formed queue data, `recommend_staffing_needs` emits the
`'Cashier'` finding iff `busy_ratio ≥ 0.6 ∨ sustained_ratio ≥ 0.5`, and
separately the `'Support Staff'` finding iff at least 2 stations' latest
dwell time reaches 120 s, with exactly the listed fields. -/
theorem staffing_needs_thresholds :
    ∀ (st : Store) (T : Int),
      get_all_stations st ≠ [] →
      (∀ sid ∈ get_all_stations st, staffRaises st sid = false) →
      recommend_staffing_needs st T =
        (let stations := get_all_stations st
         let n : Rat := (stations.length : Rat)
         let busy_ratio : Rat := ((stations.countP (busyP st) : Int) : Rat) / n
         let sustained_ratio : Rat :=
           ((stations.countP (sustP st) : Int) : Rat) / n
         (if 3/5 ≤ busy_ratio ∨ 1/2 ≤ sustained_ratio then
           [StaffEvent.cashier
             { event_name := "Staffing Needs", staff_type := "Cashier",
               action := "ADD",
               reason := "Sustained high customer traffic detected",
               busy_stations := (stations.countP (busyP st) : Int),
               sustained_busy_stations := (stations.countP (sustP st) : Int),
               total_stations := (stations.length : Int),
               total_customers := (stations.map (custOf st)).sum,
               busy_ratio := busy_ratio, sustained_ratio := sustained_ratio,
               timestamp := T,
               confidence := if 1/2 ≤ sustained_ratio then 8/10 else 75/100,
               severity :=
                 if 4/5 ≤ busy_ratio ∨ 7/10 ≤ sustained_ratio then "HIGH"
                 else "MEDIUM" }]
          else []) ++
         (if 2 ≤ ((stations.countP (waitP st) : Int)) then
           [StaffEvent.support
             { event_name := "Staffing Needs", staff_type := "Support Staff",
               action := "ADD",
               reason := "Extended wait times at multiple stations",
               affected_stations := (stations.countP (waitP st) : Int),
               timestamp := T, confidence := 8/10, severity := "HIGH" }]
          else [])) := by
  intro st T hne hok
  unfold recommend_staffing_needs
  dsimp only
  rw [if_neg (by simpa [List.isEmpty_iff] using hne),
    if_neg (by simp [List.any_eq_false] at *; exact hok)]
  rw [foldl_staff_total, foldl_staff_busy, foldl_staff_wait,
    foldl_staff_sustained]
  simp

/-- Witness for C8: the characterization applied to the
`[3,3,3,0,0,0]`-counts store (one station, sustained-busy by the source's
last-six rule), then evaluated: the cashier event fires. -/
theorem staffing_needs_thresholds_witness :
    recommend_staffing_needs stSustained 25 =
      [StaffEvent.cashier
        ⟨"Staffing Needs", "Cashier", "ADD",
         "Sustained high customer traffic detected", 0, 1, 1, 0, 0, 1, 25,
         8/10, "HIGH"⟩] := by
  have h := staffing_needs_thresholds stSustained 25 (by decide) (by decide)
  rw [h]
  decide

/-! ### Window retention (C1) -/

/-- All entries of a deque are timestamped at or before `hi`. -/
def entryLE (l : List Entry) (hi : Int) : Prop :=
  ∀ e ∈ l, e.ts ≤ hi

/-- Entry timestamps are non-decreasing along a deque. -/
def sortedE (l : List Entry) : Prop :=
  List.Pairwise (fun a b => a.ts ≤ b.ts) l

/-- Every per-station deque of one bucket dictionary is sorted and bounded
by `hi`. -/
def bucketOK (b : Buckets) (hi : Int) : Prop :=
  ∀ p ∈ b, sortedE p.2 ∧ entryLE p.2 hi

/-- The four per-station bucket dictionaries are sorted and bounded by `hi`:
the invariant maintained by chronological ingestion. -/
def storeOK (st : Store) (hi : Int) : Prop :=
  bucketOK st.pos_transactions hi ∧ bucketOK st.rfid_readings hi ∧
  bucketOK st.queue_data hi ∧ bucketOK st.product_recognition hi

theorem storeOK_empty (w lo : Int) : storeOK (emptyStore w) lo := by
  refine ⟨?_, ?_, ?_, ?_⟩ <;> intro p hp <;> simp [emptyStore] at hp

theorem bucketOK_mono {b : Buckets} {hi hi' : Int} (h : bucketOK b hi)
    (hle : hi ≤ hi') : bucketOK b hi' :=
  fun p hp => ⟨(h p hp).1, fun e he => le_trans ((h p hp).2 e he) hle⟩

theorem getB_OK {b : Buckets} {hi : Int} (h : bucketOK b hi) (k : String) :
    sortedE (getB b k) ∧ entryLE (getB b k) hi := by
  unfold getB
  cases hx : lookupA b k with
  | none =>
    exact ⟨List.Pairwise.nil, fun e he => absurd he (List.not_mem_nil e)⟩
  | some l => exact h (k, l) (lookupA_mem hx)

theorem appendB_OK {b : Buckets} {hi t : Int} (h : bucketOK b hi)
    (hle : hi ≤ t) (k : String) (d : ParsedData) :
    bucketOK (appendB b k ⟨t, d⟩) t := by
  intro p hp
  rcases mem_setA hp with hpe | hp'
  · rcases getB_OK h k with ⟨hs, hb⟩
    rw [hpe]
    constructor
    · show sortedE (getB b k ++ [⟨t, d⟩])
      unfold sortedE
      rw [List.pairwise_append]
      refine ⟨hs, List.pairwise_singleton _ _, ?_⟩
      intro x hx y hy
      rw [List.mem_singleton.mp hy]
      exact le_trans (hb x hx) hle
    · intro e he
      rcases List.mem_append.mp he with he' | he'
      · exact le_trans (hb e he') hle
      · rw [List.mem_singleton.mp he']
  · exact ⟨(h p hp').1, fun e he => le_trans ((h p hp').2 e he) hle⟩

theorem appendIf_OK {b : Buckets} {hi t : Int} (h : bucketOK b hi)
    (hle : hi ≤ t) (so : Option String) (d : ParsedData) :
    bucketOK (appendIf b so ⟨t, d⟩) t := by
  cases so with
  | none => exact bucketOK_mono h hle
  | some s => exact appendB_OK h hle s d

theorem cleanupList_sorted {l : List Entry} (h : sortedE l) (c : Int) :
    sortedE (cleanupList c l) :=
  List.Pairwise.sublist (List.dropWhile_sublist _) h

theorem cleanupList_le {l : List Entry} {hi : Int} (h : entryLE l hi)
    (c : Int) : entryLE (cleanupList c l) hi :=
  fun e he => h e ((List.dropWhile_sublist _).subset he)

theorem cleanupList_ge (c : Int) : ∀ l : List Entry, sortedE l →
    ∀ e ∈ cleanupList c l, c ≤ e.ts := by
  intro l
  induction l with
  | nil => intro _ e he; simp [cleanupList] at he
  | cons a rest ih =>
    intro hs e he
    unfold cleanupList at he
    rw [List.dropWhile_cons] at he
    by_cases ha : a.ts < c
    · rw [if_pos (by simpa using ha)] at he
      exact ih (List.Pairwise.of_cons hs) e he
    · rw [if_neg (by simpa using ha)] at he
      rcases List.mem_cons.mp he with rfl | he'
      · exact le_of_not_lt ha
      · exact le_trans (le_of_not_lt ha) (List.rel_of_pairwise_cons hs he')

theorem cleanupBucket_OK {b : Buckets} {hi : Int} (h : bucketOK b hi)
    (c : Int) : bucketOK (cleanupBucket c b) hi := by
  intro p hp
  unfold cleanupBucket at hp
  rcases List.mem_map.mp hp with ⟨q, hq, hqe⟩
  rw [← hqe]
  exact ⟨cleanupList_sorted (h q hq).1 c, cleanupList_le (h q hq).2 c⟩

theorem getB_cleanupBucket (c : Int) (b : Buckets) (k : String) :
    getB (cleanupBucket c b) k = cleanupList c (getB b k) := by
  unfold getB cleanupBucket
  rw [lookupA_map]
  cases lookupA b k <;> simp [cleanupList]

theorem cleanup_getB_bound {b : Buckets} {hi : Int} (hb : bucketOK b hi)
    (c : Int) (sid : String) :
    ∀ e ∈ getB (cleanupBucket c b) sid, c ≤ e.ts := by
  intro e he
  rw [getB_cleanupBucket] at he
  exact cleanupList_ge c (getB b sid) (getB_OK hb sid).1 e he

theorem routeData_window (st : Store) (d : ParsedData) (ts : Int) :
    (routeData st d ts).time_window = st.time_window := by
  unfold routeData
  repeat' split
  all_goals rfl

theorem updateStatus_window (st : Store) (d : ParsedData) (ts : Int) :
    (updateStatus st d ts).time_window = st.time_window := by
  unfold updateStatus
  cases d.sid <;> rfl

theorem add_data_none {st : Store} {d : ParsedData}
    (ht : d.timestamp = none) : add_data st d = st := by
  unfold add_data
  rw [ht]

theorem add_data_window (st : Store) (d : ParsedData) :
    (add_data st d).time_window = st.time_window := by
  unfold add_data
  cases ht : d.timestamp with
  | none => rfl
  | some ts =>
    show (cleanupStore (updateStatus (routeData st d ts) d ts) ts).time_window
      = st.time_window
    show (updateStatus (routeData st d ts) d ts).time_window = st.time_window
    rw [updateStatus_window, routeData_window]

theorem ingestAll_window (ds : List ParsedData) :
    ∀ st : Store, (ingestAll st ds).time_window = st.time_window := by
  induction ds with
  | nil => intro st; rfl
  | cons d rest ih =>
    intro st
    show (ingestAll (add_data st d) rest).time_window = st.time_window
    rw [ih, add_data_window]

theorem routeData_OK {st : Store} {hi t : Int} (h : storeOK st hi)
    (hle : hi ≤ t) (d : ParsedData) : storeOK (routeData st d t) t := by
  obtain ⟨h1, h2, h3, h4⟩ := h
  unfold routeData
  split
  · exact ⟨appendIf_OK h1 hle _ _, bucketOK_mono h2 hle,
      bucketOK_mono h3 hle, bucketOK_mono h4 hle⟩
  split
  · exact ⟨bucketOK_mono h1 hle, appendIf_OK h2 hle _ _,
      bucketOK_mono h3 hle, bucketOK_mono h4 hle⟩
  split
  · exact ⟨bucketOK_mono h1 hle, bucketOK_mono h2 hle,
      appendIf_OK h3 hle _ _, bucketOK_mono h4 hle⟩
  split
  · exact ⟨bucketOK_mono h1 hle, bucketOK_mono h2 hle,
      bucketOK_mono h3 hle, appendIf_OK h4 hle _ _⟩
  split
  · exact ⟨bucketOK_mono h1 hle, bucketOK_mono h2 hle,
      bucketOK_mono h3 hle, bucketOK_mono h4 hle⟩
  · exact ⟨bucketOK_mono h1 hle, bucketOK_mono h2 hle,
      bucketOK_mono h3 hle, bucketOK_mono h4 hle⟩

theorem updateStatus_OK {st : Store} {hi : Int} (h : storeOK st hi)
    (d : ParsedData) (ts : Int) : storeOK (updateStatus st d ts) hi := by
  unfold updateStatus
  cases d.sid with
  | none => exact h
  | some s => exact h

theorem cleanupStore_OK {st : Store} {hi : Int} (h : storeOK st hi)
    (cur : Int) : storeOK (cleanupStore st cur) hi :=
  ⟨cleanupBucket_OK h.1 _, cleanupBucket_OK h.2.1 _,
   cleanupBucket_OK h.2.2.1 _, cleanupBucket_OK h.2.2.2 _⟩

theorem add_data_OK {st : Store} {hi t : Int} (h : storeOK st hi)
    (hle : hi ≤ t) {d : ParsedData} (ht : d.timestamp = some t) :
    storeOK (add_data st d) t := by
  unfold add_data
  rw [ht]
  exact cleanupStore_OK (updateStatus_OK (routeData_OK h hle d) d t) t

/-- Chronological ingestion, as a decidable predicate: every record's
timestamp (when present) is at least `lo` and at least every earlier
record's timestamp. -/
def chronLe (lo : Int) : List ParsedData → Bool
  | [] => true
  | d :: ds =>
    match d.timestamp with
    | none => chronLe lo ds
    | some t => decide (lo ≤ t) && chronLe t ds

/-- The timestamp of the last record carrying one, `lo` if none does. -/
def endTime (lo : Int) : List ParsedData → Int
  | [] => lo
  | d :: ds =>
    match d.timestamp with
    | none => endTime lo ds
    | some t => endTime t ds

theorem band_true {a b : Bool} (h : (a && b) = true) :
    a = true ∧ b = true := by
  cases a <;> cases b <;> simp_all

theorem band_true_intro {a b : Bool} (h1 : a = true) (h2 : b = true) :
    (a && b) = true := by
  rw [h1, h2]
  rfl

theorem endTime_cons_none {lo : Int} {d : ParsedData}
    (ht : d.timestamp = none) (rest : List ParsedData) :
    endTime lo (d :: rest) = endTime lo rest := by
  show (match d.timestamp with
    | none => endTime lo rest
    | some t => endTime t rest) = endTime lo rest
  rw [ht]

theorem endTime_cons_some {lo t : Int} {d : ParsedData}
    (ht : d.timestamp = some t) (rest : List ParsedData) :
    endTime lo (d :: rest) = endTime t rest := by
  show (match d.timestamp with
    | none => endTime lo rest
    | some u => endTime u rest) = endTime t rest
  rw [ht]

theorem chronLe_endTime (ds : List ParsedData) : ∀ lo : Int,
    chronLe lo ds = true → lo ≤ endTime lo ds := by
  induction ds with
  | nil => intro lo _; exact le_refl lo
  | cons d rest ih =>
    intro lo h
    unfold chronLe at h
    cases ht : d.timestamp with
    | none =>
      rw [ht] at h
      rw [endTime_cons_none ht]
      exact ih lo h
    | some t =>
      rw [ht] at h
      rcases band_true h with ⟨h1, h2⟩
      rw [endTime_cons_some ht]
      exact le_trans (of_decide_eq_true h1) (ih t h2)

theorem ingestAll_OK (ds : List ParsedData) : ∀ (st : Store) (lo : Int),
    storeOK st lo → chronLe lo ds = true →
    storeOK (ingestAll st ds) (endTime lo ds) := by
  induction ds with
  | nil => intro st lo h _; exact h
  | cons d rest ih =>
    intro st lo h hc
    unfold chronLe at hc
    show storeOK (ingestAll (add_data st d) rest) (endTime lo (d :: rest))
    cases ht : d.timestamp with
    | none =>
      rw [ht] at hc
      rw [add_data_none ht]
      rw [endTime_cons_none ht]
      exact ih st lo h hc
    | some t =>
      rw [ht] at hc
      rcases band_true hc with ⟨h1, h2⟩
      rw [endTime_cons_some ht]
      exact ih (add_data st d) t (add_data_OK h (of_decide_eq_true h1) ht) h2

theorem chronLe_append (ds ds' : List ParsedData) : ∀ lo : Int,
    chronLe lo (ds ++ ds') = true →
    chronLe lo ds = true ∧ chronLe (endTime lo ds) ds' = true := by
  induction ds with
  | nil => intro lo h; exact ⟨rfl, h⟩
  | cons d rest ih =>
    intro lo h
    rw [List.cons_append] at h
    cases ht : d.timestamp with
    | none =>
      have h' : chronLe lo (rest ++ ds') = true := by
        unfold chronLe at h; rw [ht] at h; exact h
      rcases ih lo h' with ⟨ha, hb⟩
      refine ⟨?_, ?_⟩
      · unfold chronLe; rw [ht]; exact ha
      · rw [endTime_cons_none ht]; exact hb
    | some t =>
      have h' : (decide (lo ≤ t) && chronLe t (rest ++ ds')) = true := by
        unfold chronLe at h; rw [ht] at h; exact h
      rcases band_true h' with ⟨h1, h2⟩
      rcases ih t h2 with ⟨ha, hb⟩
      refine ⟨?_, ?_⟩
      · unfold chronLe; rw [ht]; exact band_true_intro h1 ha
      · rw [endTime_cons_some ht]; exact hb

theorem add_data_bound {st : Store} {hi T : Int} (h : storeOK st hi)
    (hle : hi ≤ T) {d : ParsedData} (ht : d.timestamp = some T)
    (sid : String) :
    (∀ e ∈ getB (add_data st d).pos_transactions sid,
      T - st.time_window ≤ e.ts) ∧
    (∀ e ∈ getB (add_data st d).rfid_readings sid,
      T - st.time_window ≤ e.ts) ∧
    (∀ e ∈ getB (add_data st d).queue_data sid,
      T - st.time_window ≤ e.ts) ∧
    (∀ e ∈ getB (add_data st d).product_recognition sid,
      T - st.time_window ≤ e.ts) := by
  have hst2 : storeOK (updateStatus (routeData st d T) d T) T :=
    updateStatus_OK (routeData_OK h hle d) d T
  have hwin : (updateStatus (routeData st d T) d T).time_window
      = st.time_window := by
    rw [updateStatus_window, routeData_window]
  have hadd : add_data st d =
      cleanupStore (updateStatus (routeData st d T) d T) T := by
    unfold add_data; rw [ht]
  rw [hadd]
  rw [← hwin]
  exact ⟨cleanup_getB_bound hst2.1 _ sid, cleanup_getB_bound hst2.2.1 _ sid,
    cleanup_getB_bound hst2.2.2.1 _ sid, cleanup_getB_bound hst2.2.2.2 _ sid⟩

theorem get_recent_data_sub {st : Store} {sid ty : String} {lim : Nat}
    {e : Entry} (he : e ∈ get_recent_data st sid ty lim) :
    e ∈ getB st.pos_transactions sid ∨ e ∈ getB st.rfid_readings sid ∨
    e ∈ getB st.queue_data sid ∨ e ∈ getB st.product_recognition sid := by
  unfold get_recent_data at he
  dsimp only at he
  by_cases h1 : ty = "pos_transactions"
  · rw [if_pos h1] at he
    dsimp only at he
    refine Or.inl ?_
    by_cases hl : lim = 0
    · rw [if_pos hl] at he; exact he
    · rw [if_neg hl] at he; exact List.drop_subset _ _ he
  · rw [if_neg h1] at he
    by_cases h2 : ty = "rfid_readings"
    · rw [if_pos h2] at he
      dsimp only at he
      refine Or.inr (Or.inl ?_)
      by_cases hl : lim = 0
      · rw [if_pos hl] at he; exact he
      · rw [if_neg hl] at he; exact List.drop_subset _ _ he
    · rw [if_neg h2] at he
      by_cases h3 : ty = "queue_data"
      · rw [if_pos h3] at he
        dsimp only at he
        refine Or.inr (Or.inr (Or.inl ?_))
        by_cases hl : lim = 0
        · rw [if_pos hl] at he; exact he
        · rw [if_neg hl] at he; exact List.drop_subset _ _ he
      · rw [if_neg h3] at he
        by_cases h4 : ty = "product_recognition"
        · rw [if_pos h4] at he
          dsimp only at he
          refine Or.inr (Or.inr (Or.inr ?_))
          by_cases hl : lim = 0
          · rw [if_pos hl] at he; exact he
          · rw [if_neg hl] at he; exact List.drop_subset _ _ he
        · rw [if_neg h4] at he
          dsimp only at he
          simp at he

/-- C1 counterexample — ingesting POS records for station `"S1"` at times
100, 0, 100 into a 30-second-window store: the final ingest has timestamp
`T = 100`, yet `recent("S1", pos_transactions, ∞)` still holds the entry
with timestamp `0 < T − 30`, because `_cleanup_old_data` pops only from the
front of each deque and stops at the first young-enough entry.  The claim's
unquantified "for every sequence of ingested records" is therefore false. -/
theorem window_retention_counterexample :
    (get_recent_data stOutOfOrder "S1" "pos_transactions" 99).any
      (fun e => decide (e.ts < 100 - 30)) = true := by
  decide

/-- C1 (amended: holds for every sequence of records ingested in
chronological — non-decreasing timestamp — order, the regime the spec's data
model assumes; out-of-order arrivals violate it, see the counterexample) —
immediately after ingesting a record with timestamp `T`, the recent data of
every station and every per-station record type, at any limit, holds no
entry with timestamp below `T − window`. -/
theorem window_retention_chronological (w : Int) (ds : List ParsedData)
    (d : ParsedData) (T lo : Int) (sid ty : String) (lim : Nat) (e : Entry)
    (hchron : chronLe lo (ds ++ [d]) = true)
    (hT : d.timestamp = some T)
    (he : e ∈ get_recent_data (ingestAll (emptyStore w) (ds ++ [d]))
      sid ty lim) :
    T - w ≤ e.ts := by
  have hsplit := chronLe_append ds [d] lo hchron
  have hts : endTime lo ds ≤ T := by
    have h1 := hsplit.2
    unfold chronLe at h1
    rw [hT] at h1
    exact of_decide_eq_true (band_true h1).1
  have hOK : storeOK (ingestAll (emptyStore w) ds) (endTime lo ds) :=
    ingestAll_OK ds (emptyStore w) lo (storeOK_empty w lo) hsplit.1
  have hfold : ingestAll (emptyStore w) (ds ++ [d]) =
      add_data (ingestAll (emptyStore w) ds) d := by
    unfold ingestAll
    rw [List.foldl_append]
    rfl
  rw [hfold] at he
  have hwin : (ingestAll (emptyStore w) ds).time_window = w := by
    rw [ingestAll_window]; rfl
  have hbound := add_data_bound hOK hts hT sid
  rw [hwin] at hbound
  rcases get_recent_data_sub he with h | h | h | h
  · exact hbound.1 e h
  · exact hbound.2.1 e h
  · exact hbound.2.2.1 e h
  · exact hbound.2.2.2 e h

/-- Witness for C1: one POS record at time 100 ingested chronologically into
an empty 30-second store; the surviving entry satisfies the bound. -/
theorem window_retention_chronological_witness :
    (100 : Int) - 30 ≤ (⟨100, pdPos 100⟩ : Entry).ts :=
  window_retention_chronological 30 [] (pdPos 100) 100 0 "S1"
    "pos_transactions" 99 ⟨100, pdPos 100⟩ (by decide) (by decide) (by decide)

end Sentinel
